import Mathlib

/-!
Verification of the retrieval-augmented CCNA tutoring pipeline.

This development is a shallow embedding of the repository's Python sources:
`AI_model_gemini.py`, `AI_model_qwen2.py`, `AI_model_phi3.py`,
`AI_model_llama.py` and `fastapi_server.py`.  Text is modelled as `List Char`
(`Str`), Python list indexing/slicing by explicit functions with Python's
negative-index semantics, and the external FAISS `IndexFlatL2.search` call by
an executable exact nearest-neighbour search over rational vectors, including
the library's documented padding of missing results with id `-1` and an
infinite distance (`⊤` of `WithTop ℚ`).  External generation services (the
Gemini API, the Ollama daemon) are modelled by outcome parameters, and each
backend's answer function is the total function the surrounding `try/except`
blocks make of them.
-/

namespace CCNATutor

/-- Text, modelled as a list of characters (Python `str`). -/
abbrev Str := List Char

/-- Python `s.lower()` (ASCII, which is all the sources use). -/
def lowerStr (s : Str) : Str := s.map Char.toLower

/-- The character class stripped by Python `str.strip()`. -/
def isPySpace (c : Char) : Bool :=
  c == ' ' || c == '\t' || c == '\n' || c == '\x0d' || c == '\x0b' || c == '\x0c'

/-- Python `s.strip()`: remove leading and trailing whitespace. -/
def pyStrip (s : Str) : Str :=
  ((s.dropWhile isPySpace).reverse.dropWhile isPySpace).reverse

/-- Python `l[-n:]` for `n > 0`: the at most `n` most recent elements,
in order (most recent last). -/
def pyLast (n : Nat) (l : List α) : List α := l.drop (l.length - n)

/-- Python `l[:n]` for `n ≥ 0`. -/
def pyTake (n : Nat) (l : List α) : List α := l.take n

/-- Python list indexing `l[i]`, including negative indices counting from the
end.  Out-of-range access raises in Python; it cannot occur at the call sites
embedded below (FAISS ids lie in `{-1} ∪ [0, n)`), so it is given the junk
value `[]` here. -/
def pyGet (l : List Str) (i : Int) : Str :=
  if 0 ≤ i then l.getD i.toNat [] else l.getD ((l.length : Int) + i).toNat []

/-- Python `"\n".join(xs)`. -/
def joinNL (xs : List Str) : Str := List.intercalate ("\n".toList) xs

/-- The conversation-memory entry `f"Q: {query}\nA: {response}"` appended by
the Gemini and Qwen2 tutors. -/
def qaEntry (query response : Str) : Str :=
  ("Q: ".toList) ++ query ++ ("\nA: ".toList) ++ response

/-! Section: FAISS `IndexFlatL2` model.

`AI_model_gemini.py` and `AI_model_qwen2.py` build `faiss.IndexFlatL2(dim)`
over the corpus embeddings and call `index.search(query_vec, top_k)`.
Embedding vectors are modelled as rational vectors.  FAISS's exact flat L2
search returns, for the single query row, exactly `k` `(id, distance)` pairs:
the valid neighbours ordered by non-decreasing squared Euclidean distance,
padded - when the index holds fewer than `k` vectors - with id `-1` and an
unattainable (infinite) distance. -/

/-- Squared Euclidean (L2) distance between two vectors. -/
def sqDist (u v : List ℚ) : ℚ := (List.zipWith (fun a b => (a - b) ^ 2) u v).sum

/-- The candidate list: each database position paired with its squared
distance to the query vector. -/
def searchPairs (db : List (List ℚ)) (qv : List ℚ) : List (Int × WithTop ℚ) :=
  db.enum.map (fun p => ((p.1 : Int), ((sqDist qv p.2 : ℚ) : WithTop ℚ)))

/-- Comparison used to order search results: by distance, ties broken by
database position. -/
def searchLe (p q : Int × WithTop ℚ) : Prop :=
  p.2 < q.2 ∨ (p.2 = q.2 ∧ p.1 ≤ q.1)

instance : DecidableRel searchLe := fun p q => by
  unfold searchLe; infer_instance

instance : IsTotal (Int × WithTop ℚ) searchLe := by
  constructor
  intro p q
  rcases lt_trichotomy p.2 q.2 with h | h | h
  · exact Or.inl (Or.inl h)
  · rcases le_total p.1 q.1 with h1 | h1
    · exact Or.inl (Or.inr ⟨h, h1⟩)
    · exact Or.inr (Or.inr ⟨h.symm, h1⟩)
  · exact Or.inr (Or.inl h)

instance : IsTrans (Int × WithTop ℚ) searchLe := by
  constructor
  intro p q r hpq hqr
  rcases hpq with h1 | ⟨e1, l1⟩
  · rcases hqr with h2 | ⟨e2, _⟩
    · exact Or.inl (h1.trans h2)
    · exact Or.inl (e2 ▸ h1)
  · rcases hqr with h2 | ⟨e2, l2⟩
    · exact Or.inl (e1 ▸ h2)
    · exact Or.inr ⟨e1.trans e2, l1.trans l2⟩

/-- Model of `faiss.IndexFlatL2.search` on a single query row: the `k` nearest
`(id, squared-distance)` pairs, nearest first, padded with `(-1, ⊤)` when the
index holds fewer than `k` vectors. -/
def faissSearch (db : List (List ℚ)) (qv : List ℚ) (k : Nat) :
    List (Int × WithTop ℚ) :=
  (List.insertionSort searchLe (searchPairs db qv)).take k ++
    List.replicate (k - db.length) ((-1 : Int), (⊤ : WithTop ℚ))

/-! Section: retrieval context (shared by `AI_model_gemini.py` and `AI_model_qwen2.py`)

Both files build the retrieval context with the identical line
`"\n".join([f"Q: {questions[i]}\nA: {correct_texts[i]}" for i in I[0] if i < len(questions)])`. -/

/-- The ids that survive the comprehension's guard `if i < len(questions)`
and are used to build `Q:/A:` pairs.  Note the guard does not reject FAISS's
`-1` padding ids. -/
def contextPositions (questions : List Str) (ids : List Int) : List Int :=
  ids.filter (fun i => i < (questions.length : Int))

/-- The context block: one `Q:/A:` pair for every id passing the guard,
joined by newlines.  Python's negative indexing sends a surviving `-1` to
the last corpus entry. -/
def retrievedContext (questions corrects : List Str) (ids : List Int) : Str :=
  joinNL ((contextPositions questions ids).map
    (fun i => ("Q: ".toList) ++ pyGet questions i ++ ("\nA: ".toList) ++ pyGet corrects i))

/-! Section: Gemini backend (`AI_model_gemini.py`). -/

/-- Outcome of a call into an opaque generation service: either generated
text, or an exception carrying a message (connection error, timeout, quota,
any other failure). -/
inductive ApiOutcome
  | success (text : Str)
  | failure (message : Str)

/-- Function `generate_answer` of `AI_model_gemini.py`: returns the stripped response
text, and converts every exception into a descriptive error string. -/
def geminiGenerateAnswer : ApiOutcome → Str
  | .success t => pyStrip t
  | .failure e => ("[Error from Gemini API] ".toList) ++ e

/-- The fixed text of the Gemini prompt template up to the `{context}` hole. -/
def geminiPromptHead : Str :=
  ("\nYou are an expert Cisco network engineer specializing in IOS configurations and CLI commands.\n\nYour expertise:\n- **Cisco IOS Command Syntax**: Provide exact, copy-pasteable commands\n- **Router & Switch Configuration**: Step-by-step configuration workflows\n- **VLAN Setup**: Trunking, access ports, inter-VLAN routing\n- **Routing Protocols**: OSPF, EIGRP, BGP configuration\n- **ACLs & Security**: Access control lists, port security\n- **NAT/PAT**: Network address translation setup\n- **Verification Commands**: Show commands to verify configs work\n\nYour response format:\n1. Brief explanation of what we\x27re configuring\n2. Exact CLI commands (copy-pasteable)\n3. Explanation of what each command does\n4. Verification steps with show commands\n5. Common mistakes to avoid\n\nContext/reference:\n").toList

/-- The Gemini prompt f-string of `personalized_tutor`, with the `context`,
`history_text` and `query` holes filled. -/
def geminiPrompt (context historyText query : Str) : Str :=
  geminiPromptHead ++ context ++ ("\n\n".toList) ++ historyText ++
    ("\n\nConfiguration request: ".toList) ++ query ++
    ("\n\nProvide clear CLI commands with syntax and verification steps.\n".toList)

/-- The Gemini conversation-memory block: empty for an empty history,
otherwise a header plus the joined last five entries (`[-5:]`). -/
def geminiHistoryText (hist : List Str) : Str :=
  if hist = [] then [] else
    ("\nPrevious tutor interactions:\n".toList) ++ joinNL (pyLast 5 hist)

/-- Function `personalized_tutor` of `AI_model_gemini.py`.  The sentence-transformer
encoder and the Gemini API are the opaque parameters `encode` and `api`;
`questions`/`corrects` are the corpus columns and `db` the corpus embedding
vectors the FAISS index was built from.  Returns the response together with
the updated conversation history. -/
def geminiPersonalizedTutor (questions corrects : List Str) (db : List (List ℚ))
    (encode : Str → List ℚ) (api : Str → ApiOutcome) (hist : List Str)
    (query : Str) (topK : Nat) : Str × List Str :=
  let ids := (faissSearch db (encode query) topK).map Prod.fst
  let context := retrievedContext questions corrects ids
  let historyText := geminiHistoryText hist
  let prompt := geminiPrompt context historyText query
  let responseText := geminiGenerateAnswer (api prompt)
  (responseText, hist ++ [qaEntry query responseText])

/-! Section: Qwen2 backend (`AI_model_qwen2.py`). -/

/-- Outcome of the `requests.post` call to the Ollama daemon. -/
inductive OllamaOutcome
  | httpResponse (statusCode : Int) (responseField : Option Str)
  | connectionError
  | timeoutError
  | otherError (message : Str)

/-- Function `generate_answer` of `AI_model_qwen2.py`: the stripped `response` field on
HTTP 200, a descriptive error string on every other status and on every
caught exception. -/
def qwenGenerateAnswer : OllamaOutcome → Str
  | .httpResponse code body =>
      if code = 200 then pyStrip (body.getD [])
      else ("[Error] Ollama returned status ".toList) ++ (toString code).toList ++
        (". Is Ollama running?".toList)
  | .connectionError => ("[Error] Cannot connect to Ollama. Please start Ollama service.".toList)
  | .timeoutError => ("[Error] Request timed out. Try again.".toList)
  | .otherError e => ("[Error] ".toList) ++ e

/-- The fixed Qwen2 instruction block. -/
def qwenInstruction : Str :=
  ("You are a CCNA exam practice coach. Provide INSTANT, CONCISE answers.\n\nYour focus:\n- Quick, direct answers\n- Practice questions when asked\n- Brief explanations (2-3 sentences max)\n- Perfect for rapid Q&A and flash cards\n- No lengthy details - speed is priority").toList

/-- The Qwen2 prompt f-string: note the retrieved context is cut to its first
400 characters (`{context[:400]}`), and the conversation history is not
inserted at all. -/
def qwenPrompt (context query : Str) : Str :=
  qwenInstruction ++ ("\n\nContext: ".toList) ++ pyTake 400 context ++
    ("\n\nQuestion: ".toList) ++ query ++ ("\n\nQuick answer:".toList)

/-- The Qwen2 conversation-memory block (header plus joined last two entries,
`[-2:]`); computed by `personalized_tutor` but never used in the prompt. -/
def qwenHistoryText (hist : List Str) : Str :=
  if hist = [] then [] else ("\nPrevious:\n".toList) ++ joinNL (pyLast 2 hist)

/-- The prompt assembled by the Qwen2 `personalized_tutor` for a given query.
The `mode` argument is accepted (one of `concepts`, `configuration`,
`troubleshooting`, `practice`) but, exactly as in the source, never read. -/
def qwenAssembledPrompt (questions corrects : List Str) (db : List (List ℚ))
    (encode : Str → List ℚ) (query mode : Str) (topK : Nat) : Str :=
  let ids := (faissSearch db (encode query) topK).map Prod.fst
  let context := retrievedContext questions corrects ids
  qwenPrompt context query

/-- Function `personalized_tutor` of `AI_model_qwen2.py`.  Returns the response and the
updated conversation history. -/
def qwenPersonalizedTutor (questions corrects : List Str) (db : List (List ℚ))
    (encode : Str → List ℚ) (api : Str → OllamaOutcome) (hist : List Str)
    (query mode : Str) (topK : Nat) : Str × List Str :=
  let historyText := qwenHistoryText hist
  let prompt := qwenAssembledPrompt questions corrects db encode query mode topK
  let responseText := qwenGenerateAnswer (api prompt)
  let _ := historyText
  (responseText, hist ++ [qaEntry query responseText])

/-! Section: Phi3 backend (`AI_model_phi3.py`). -/

/-- Python `needle in haystack` on strings: contiguous substring test. -/
def containsSub (needle haystack : Str) : Bool := decide (needle <:+: haystack)

/-- The suffix `_enhance_response` appends for configuration questions whose
answer mentions neither `verify` nor `show`. -/
def phi3VerifySuffix : Str :=
  ("\n\nBy the way, don\x27t forget to verify your configuration works as expected - the \x27show\x27 commands are your best friend for confirming everything is set up correctly.").toList

/-- The suffix `_enhance_response` appends for troubleshooting questions whose
answer mentions neither `approach` nor `method`. -/
def phi3TroubleshootSuffix : Str :=
  ("\n\nWhen troubleshooting, I find it helpful to work systematically through the layers - start with the physical connections, then data link, network, and so on. It saves time in the long run.").toList

/-- Method `Phi3CCNATutor._enhance_response`: strip the answer, then conditionally
append the verification and troubleshooting notes. -/
def phi3EnhanceResponse (answer query : Str) : Str :=
  let e0 := pyStrip answer
  let e1 :=
    if (containsSub ("configure".toList) (lowerStr query) ||
        containsSub ("configuration".toList) (lowerStr query)) &&
       (!containsSub ("verify".toList) (lowerStr e0) &&
        !containsSub ("show".toList) (lowerStr e0))
    then e0 ++ phi3VerifySuffix else e0
  if (containsSub ("troubleshoot".toList) (lowerStr query) ||
      containsSub ("problem".toList) (lowerStr query)) &&
     (!containsSub ("approach".toList) (lowerStr e1) &&
      !containsSub ("method".toList) (lowerStr e1))
  then e1 ++ phi3TroubleshootSuffix else e1

/-- The apology string returned by `Phi3CCNATutor.ask_question` (and
`LlamaCCNATutor.ask_question`) when any exception is caught. -/
def ollamaTutorApology (modelName : Str) : Str :=
  ("I apologize, but I encountered an issue. Please ensure Ollama is running with the ".toList) ++
    modelName ++ (" model loaded.".toList)

/-- Method `Phi3CCNATutor.ask_question`: on a successful `ollama.chat` call the
enhanced answer, on any exception the apology string; never a raised fault. -/
def phi3AskQuestion (modelName : Str) (outcome : ApiOutcome) (query : Str) : Str :=
  match outcome with
  | .success content => phi3EnhanceResponse content query
  | .failure _ => ollamaTutorApology modelName

/-! Section: topic classifiers (`_extract_topic` of the Phi3 and Llama tutors) -/

/-- The topic table of `Phi3CCNATutor._extract_topic`, in dict insertion
order. -/
def phi3Topics : List (Str × List Str) :=
  [ ("routing".toList,
     [("ospf").toList, ("eigrp").toList, ("rip").toList, ("bgp").toList,
      ("route").toList, ("routing").toList]),
    ("switching".toList,
     [("vlan").toList, ("stp").toList, ("switch").toList, ("trunk").toList,
      ("etherchannel").toList]),
    ("security".toList,
     [("acl").toList, ("security").toList, ("firewall").toList, ("vpn").toList,
      ("802.1x").toList]),
    ("wireless".toList,
     [("wifi").toList, ("wireless").toList, ("wlan").toList, ("ap").toList,
      ("controller").toList]),
    ("troubleshooting".toList,
     [("troubleshoot").toList, ("debug").toList, ("problem").toList,
      ("issue").toList, ("fix").toList]),
    ("subnetting".toList,
     [("subnet").toList, ("vlsm").toList, ("cidr").toList,
      ("ip address").toList, ("network").toList]),
    ("protocols".toList,
     [("tcp").toList, ("udp").toList, ("http").toList, ("dns").toList,
      ("dhcp").toList, ("snmp").toList]) ]

/-- The topic table of `LlamaCCNATutor._extract_topic`, in dict insertion
order. -/
def llamaTopics : List (Str × List Str) :=
  [ ("routing".toList,
     [("ospf").toList, ("eigrp").toList, ("rip").toList, ("bgp").toList,
      ("route").toList, ("routing").toList, ("static route").toList,
      ("dynamic routing").toList]),
    ("switching".toList,
     [("vlan").toList, ("stp").toList, ("switch").toList, ("trunk").toList,
      ("etherchannel").toList, ("port-channel").toList,
      ("spanning-tree").toList]),
    ("security".toList,
     [("acl").toList, ("security").toList, ("firewall").toList, ("vpn").toList,
      ("802.1x").toList, ("authentication").toList, ("authorization").toList]),
    ("wireless".toList,
     [("wifi").toList, ("wireless").toList, ("wlan").toList, ("ap").toList,
      ("controller").toList, ("802.11").toList, ("ssid").toList]),
    ("troubleshooting".toList,
     [("troubleshoot").toList, ("debug").toList, ("problem").toList,
      ("issue").toList, ("fix").toList, ("diagnose").toList]),
    ("subnetting".toList,
     [("subnet").toList, ("vlsm").toList, ("cidr").toList,
      ("ip address").toList, ("network").toList, ("supernet").toList]),
    ("protocols".toList,
     [("tcp").toList, ("udp").toList, ("http").toList, ("dns").toList,
      ("dhcp").toList, ("snmp").toList, ("ntp").toList, ("syslog").toList]),
    ("wan".toList,
     [("wan").toList, ("frame relay").toList, ("ppp").toList,
      ("hdlc").toList, ("serial").toList, ("leased line").toList]),
    ("ipv6".toList,
     [("ipv6").toList, ("ipng").toList, ("dual stack").toList,
      ("tunneling").toList, ("migration").toList]),
    ("qos".toList,
     [("qos").toList, ("quality of service").toList,
      ("traffic shaping").toList, ("policing").toList, ("marking").toList]) ]

/-- The `for topic, keywords in topics.items(): if any(...)` loop: return the
first table entry one of whose keywords occurs in the (already lowercased)
query, else `general`. -/
def extractTopicAux : List (Str × List Str) → Str → Str
  | [], _ => ("general").toList
  | p :: rest, ql =>
      if p.2.any (fun kw => containsSub kw ql) then p.1 else extractTopicAux rest ql

/-- Method `Phi3CCNATutor._extract_topic`. -/
def phi3ExtractTopic (query : Str) : Str := extractTopicAux phi3Topics (lowerStr query)

/-- Method `LlamaCCNATutor._extract_topic`. -/
def llamaExtractTopic (query : Str) : Str := extractTopicAux llamaTopics (lowerStr query)

/-! Section: HTTP server (`fastapi_server.py`).

The module-level mutable state of `fastapi_server.py` is the current backend
selection (`current_tutor`, `current_model`) plus the conversation memories of
the four backends (the module-level `conversation_history` lists of the Gemini
and Qwen2 modules, and the `conversation_history` attributes of the Phi3 and
Llama tutor objects — the latter two are never written by any endpoint, since
neither `ask_question` appends to them).  Which tutors imported successfully
is recorded by availability flags. -/

/-- The two tutor objects `current_tutor` can point at. -/
inductive TutorId
  | phi3T
  | llamaT
deriving DecidableEq

/-- The process-wide mutable server state. -/
structure ServerState where
  currentModel : Str
  currentTutor : Option TutorId
  phi3Avail : Bool
  llamaAvail : Bool
  geminiAvail : Bool
  geminiMem : List Str
  qwenMem : List Str
  phi3Mem : List Str
  llamaMem : List Str
deriving DecidableEq

/-- The response dict of the `/switch-model` endpoint. -/
structure SwitchResp where
  status : Str
  message : Str
  model : Option Str
  responseTime : Option Str
  gpuAccelerated : Option Bool
deriving DecidableEq

/-- The `/switch-model` endpoint (`switch_model`): updates `current_tutor` and
`current_model` for an available requested model and reports the switch; the
`gemini` branch updates only `current_model`.  No conversation memory is
touched. -/
def switchModel (st : ServerState) (reqModel : Str) : ServerState × SwitchResp :=
  if lowerStr reqModel = ("phi3").toList ∧ st.phi3Avail then
    ({ st with currentTutor := some .phi3T, currentModel := ("phi3").toList },
     { status := ("success").toList,
       message := ("Switched to Phi3:Mini (Ultra-Fast Mode)").toList,
       model := some (("phi3:mini").toList),
       responseTime := some (("1-2 seconds").toList),
       gpuAccelerated := some true })
  else if lowerStr reqModel = ("llama").toList ∧ st.llamaAvail then
    ({ st with currentTutor := some .llamaT, currentModel := ("llama").toList },
     { status := ("success").toList,
       message := ("Switched to Llama3.1:8B (Comprehensive Mode)").toList,
       model := some (("llama3.1:8b").toList),
       responseTime := some (("3-5 seconds").toList),
       gpuAccelerated := some true })
  else if lowerStr reqModel = ("gemini").toList ∧ st.geminiAvail then
    ({ st with currentModel := ("gemini").toList },
     { status := ("success").toList,
       message := ("Switched to Gemini (Code & Config Mode)").toList,
       model := some (("gemini-1.5-flash").toList),
       responseTime := some (("2-4 seconds").toList),
       gpuAccelerated := some false })
  else
    (st,
     { status := ("error").toList,
       message := ("Model \x27").toList ++ reqModel ++ ("\x27 not available").toList,
       model := none, responseTime := none, gpuAccelerated := none })

/-- The response dict of the `/chat` endpoint. -/
structure ChatResp where
  response : Option Str
  modelUsed : Option Str
  modelType : Option Str
  subject : Option Str
  gpuAccelerated : Option Bool
  status : Str
  error : Option Str
deriving DecidableEq

/-- The `/chat` endpoint (`chat_endpoint`).  `askPhi3` and `askLlama` are the
(memory-free) `ask_question` methods of the local tutors; the Gemini fallback
runs the embedded `geminiPersonalizedTutor` over the Gemini module state and
appends to the Gemini conversation memory.  `tag` is `request.model`, with
`[]` standing for the falsy values `None` and the empty string.  The
endpoint's opening block switches the selection when the request carries a
different available model tag: -/
def chatSwitch (st : ServerState) (tag : Str) : ServerState :=
  if tag ≠ [] ∧ tag ≠ st.currentModel then
    if lowerStr tag = ("phi3").toList ∧ st.phi3Avail then
      { st with currentTutor := some .phi3T, currentModel := ("phi3").toList }
    else if lowerStr tag = ("llama").toList ∧ st.llamaAvail then
      { st with currentTutor := some .llamaT, currentModel := ("llama").toList }
    else st
  else st

/-- The body of `chat_endpoint` after the switch block: answer with the
current tutor, falling back to the Gemini module, else an error response. -/
def chatEndpoint (questions corrects : List Str) (db : List (List ℚ))
    (encode : Str → List ℚ) (api : Str → ApiOutcome)
    (askPhi3 askLlama : Str → Str) (st : ServerState) (msg tag : Str) :
    ServerState × ChatResp :=
  let st1 := chatSwitch st tag
  match st1.currentTutor with
  | some t =>
      let answer := match t with | .phi3T => askPhi3 msg | .llamaT => askLlama msg
      let modelName :=
        if st1.currentModel = ("phi3").toList then ("phi3:mini").toList
        else ("llama3.1:8b").toList
      (st1,
       { response := some answer, modelUsed := some modelName,
         modelType := some st1.currentModel, subject := some (("ccna").toList),
         gpuAccelerated := some true, status := ("success").toList, error := none })
  | none =>
      if st1.geminiAvail then
        let r := geminiPersonalizedTutor questions corrects db encode api st1.geminiMem msg 3
        ({ st1 with geminiMem := r.2 },
         { response := some r.1, modelUsed := some (("gemini").toList),
           modelType := none, subject := some (("networking").toList),
           gpuAccelerated := none, status := ("success").toList, error := none })
      else
        (st1,
         { response := none, modelUsed := none, modelType := none,
           subject := none, gpuAccelerated := none, status := ("error").toList,
           error := some (("No AI model available").toList) })

/-! Section: the `ccna_tutor` endpoints (`/random-question`, `/check-answer`,
`/topics`)

These three handlers reference the name `ccna_tutor`, which is bound nowhere
at module level in `fastapi_server.py`.  Evaluating it raises
`NameError("name 'ccna_tutor' is not defined")`, which each handler's
`except Exception` guard converts into an error-status response. -/

/-- The names bound at module level in `fastapi_server.py` (imports, globals,
pydantic models, endpoint functions). -/
def fastapiModuleGlobals : List Str :=
  [ ("FastAPI").toList, ("CORSMiddleware").toList, ("BaseModel").toList,
    ("List").toList, ("Optional").toList, ("os").toList,
    ("gemini_tutor").toList, ("qwen2_tutor").toList,
    ("phi3_tutor").toList, ("llama_tutor").toList,
    ("current_tutor").toList, ("current_model").toList,
    ("Phi3CCNATutor").toList, ("LlamaCCNATutor").toList,
    ("app").toList, ("ChatRequest").toList, ("ModelSwitchRequest").toList,
    ("Query").toList, ("root").toList, ("switch_model").toList,
    ("chat_endpoint").toList, ("chat_phi3_endpoint").toList,
    ("chat_llama_endpoint").toList, ("chat_gemini_endpoint").toList,
    ("ask_tutor").toList, ("MCAnswerRequest").toList,
    ("get_random_question").toList, ("check_answer").toList,
    ("get_topics").toList, ("get_available_models").toList,
    ("health_check").toList, ("chat_qwen2_endpoint").toList ]

/-- Evaluation of a bare name in the module: success if bound, otherwise the
`NameError` message Python produces. -/
inductive PyEval (α : Type)
  | ok (val : α)
  | exn (message : Str)

/-- Look up a name among the module's global bindings. -/
def evalName (globals : List Str) (n : Str) : PyEval Unit :=
  if n ∈ globals then .ok () else
    .exn (("name \x27").toList ++ n ++ ("\x27 is not defined").toList)

/-- A generic endpoint response carrying only the fields the three
`ccna_tutor` endpoints share on their error path. -/
structure EndpointResp where
  status : Str
  error : Option Str
deriving DecidableEq

/-- The error response produced by the `except Exception as e` guard of the
three `ccna_tutor` endpoints: `{"error": f"Error: {str(e)}", "status": "error"}`. -/
def ccnaGuardError (msg : Str) : EndpointResp :=
  { status := ("error").toList, error := some (("Error: ").toList ++ msg) }

/-- Handler `get_random_question` (`/random-question`).  The success branch (random
choice from `ccna_tutor.dataset`) is abstracted by the parameter
`successResp`, reachable only if the name `ccna_tutor` evaluates. -/
def getRandomQuestion (successResp : EndpointResp) : EndpointResp :=
  match evalName fastapiModuleGlobals (("ccna_tutor").toList) with
  | .ok _ => successResp
  | .exn m => ccnaGuardError m

/-- Handler `check_answer` (`/check-answer`).  Python evaluates `ccna_tutor` before
looking at `request.question_data`, so the request is irrelevant. -/
def checkAnswer (successResp : Str × Option Str → EndpointResp)
    (userAnswer : Str) (questionData : Option Str) : EndpointResp :=
  match evalName fastapiModuleGlobals (("ccna_tutor").toList) with
  | .ok _ => successResp (userAnswer, questionData)
  | .exn m => ccnaGuardError m

/-- Handler `get_topics` (`/topics`). -/
def getTopics (successResp : EndpointResp) : EndpointResp :=
  match evalName fastapiModuleGlobals (("ccna_tutor").toList) with
  | .ok _ => successResp
  | .exn m => ccnaGuardError m

/-! Theorems. -/

/-- The topic loop returns the tag of the first matching table entry, and
`general` when none matches. -/
theorem extractTopicAux_eq_find (table : List (Str × List Str)) (ql : Str) :
    extractTopicAux table ql =
      (match table.find? (fun p => p.2.any (fun kw => containsSub kw ql)) with
       | some p => p.1
       | none => ("general").toList) := by
  induction table with
  | nil => rfl
  | cons p rest ih =>
      by_cases h : p.2.any (fun kw => containsSub kw ql) = true
      · simp [extractTopicAux, List.find?, h]
      · simp only [extractTopicAux, List.find?, h, if_neg]
        simp only [Bool.not_eq_true] at h
        simp [h, ih]

/-- The loop returns `general` exactly when no keyword of any table entry
occurs in the query, provided no tag is itself `general`. -/
theorem extractTopicAux_general_iff (table : List (Str × List Str)) (ql : Str)
    (hG : ("general").toList ∉ table.map Prod.fst) :
    (extractTopicAux table ql = ("general").toList ↔
      ∀ p ∈ table, ∀ kw ∈ p.2, ¬ kw <:+: ql) := by
  rw [extractTopicAux_eq_find]
  cases hf : table.find? (fun p => p.2.any (fun kw => containsSub kw ql)) with
  | none =>
      simp only [List.find?_eq_none] at hf
      constructor
      · intro _ p hp kw hkw hinf
        have := hf p hp
        simp only [List.any_eq_true, not_exists, not_and] at this
        exact absurd (by simpa [containsSub] using hinf) (this kw hkw)
      · intro _; rfl
  | some p₀ =>
      have hmem : p₀ ∈ table := List.mem_of_find?_eq_some hf
      have hpred : p₀.2.any (fun kw => containsSub kw ql) = true := by
        simpa using List.find?_some hf
      constructor
      · intro he
        exact absurd (he ▸ List.mem_map_of_mem Prod.fst hmem) hG
      · intro hno
        rcases List.any_eq_true.mp hpred with ⟨kw, hkw, hc⟩
        exact absurd (by simpa [containsSub] using hc) (hno p₀ hmem kw hkw)

/-- C6: Topic classification is a total function: for every input text both
`_extract_topic` implementations return exactly one tag — the tag of the
first topic (in the fixed table order) one of whose keywords occurs
case-insensitively in the text — and return `general` exactly when no
keyword of any topic occurs. -/
theorem c6_topic_classification_total (q : Str) :
    (phi3ExtractTopic q =
      (match phi3Topics.find?
          (fun p => p.2.any (fun kw => containsSub kw (lowerStr q))) with
       | some p => p.1
       | none => ("general").toList)) ∧
    (phi3ExtractTopic q = ("general").toList ↔
      ∀ p ∈ phi3Topics, ∀ kw ∈ p.2, ¬ kw <:+: lowerStr q) ∧
    (llamaExtractTopic q =
      (match llamaTopics.find?
          (fun p => p.2.any (fun kw => containsSub kw (lowerStr q))) with
       | some p => p.1
       | none => ("general").toList)) ∧
    (llamaExtractTopic q = ("general").toList ↔
      ∀ p ∈ llamaTopics, ∀ kw ∈ p.2, ¬ kw <:+: lowerStr q) := by
  refine ⟨extractTopicAux_eq_find _ _, ?_, extractTopicAux_eq_find _ _, ?_⟩
  · exact extractTopicAux_general_iff phi3Topics (lowerStr q) (by decide)
  · exact extractTopicAux_general_iff llamaTopics (lowerStr q) (by decide)

/-- C9: the `mode` parameter of the Qwen2 `personalized_tutor` has no
influence: any two mode values give the identical assembled prompt and the
identical response/memory-update pair. -/
theorem c9_qwen_mode_has_no_influence (questions corrects : List Str)
    (db : List (List ℚ)) (encode : Str → List ℚ) (api : Str → OllamaOutcome)
    (hist : List Str) (query : Str) (topK : Nat) (m1 m2 : Str) :
    qwenAssembledPrompt questions corrects db encode query m1 topK =
      qwenAssembledPrompt questions corrects db encode query m2 topK ∧
    qwenPersonalizedTutor questions corrects db encode api hist query m1 topK =
      qwenPersonalizedTutor questions corrects db encode api hist query m2 topK :=
  ⟨rfl, rfl⟩

/-- C10: the `/random-question`, `/check-answer` and `/topics` handlers can
never return a success result: whatever their (unreachable) success branches
would produce, each evaluates the unbound name `ccna_tutor`, the `NameError`
is caught, and the returned data has status `error` with the `NameError`
text. -/
theorem c10_ccna_endpoints_always_error
    (sp1 sp3 : EndpointResp) (sp2 : Str × Option Str → EndpointResp)
    (ua : Str) (qd : Option Str) :
    getRandomQuestion sp1 =
      ccnaGuardError (("name \x27ccna_tutor\x27 is not defined").toList) ∧
    checkAnswer sp2 ua qd =
      ccnaGuardError (("name \x27ccna_tutor\x27 is not defined").toList) ∧
    getTopics sp3 =
      ccnaGuardError (("name \x27ccna_tutor\x27 is not defined").toList) ∧
    (getRandomQuestion sp1).status = ("error").toList ∧
    (checkAnswer sp2 ua qd).status = ("error").toList ∧
    (getTopics sp3).status = ("error").toList := by
  have h : evalName fastapiModuleGlobals (("ccna_tutor").toList) =
      .exn (("name \x27ccna_tutor\x27 is not defined").toList) := rfl
  exact ⟨by simp only [getRandomQuestion, h],
         by simp only [checkAnswer, h],
         by simp only [getTopics, h],
         by simp only [getRandomQuestion, h]; rfl,
         by simp only [checkAnswer, h]; rfl,
         by simp only [getTopics, h]; rfl⟩

/-- A Python `[-n:]` slice has at most `n` elements. -/
theorem pyLast_length_le (n : Nat) (l : List α) : (pyLast n l).length ≤ n := by
  simp only [pyLast, List.length_drop]
  omega

/-- A Python `[-n:]` slice is a contiguous tail of the list (most recent
entries, in order, most recent last). -/
theorem pyLast_isSuffix (n : Nat) (l : List α) : pyLast n l <:+ l :=
  ⟨l.take (l.length - n), List.take_append_drop _ _⟩

/-- Slicing the last `n` twice is the same as slicing once. -/
theorem pyLast_idem (n : Nat) (l : List α) : pyLast n (pyLast n l) = pyLast n l := by
  have h : (pyLast n l).length ≤ n := pyLast_length_le n l
  simp only [pyLast]
  rw [Nat.sub_eq_zero_of_le (by simpa [pyLast] using h), List.drop_zero]

/-- The last-`n` slice of a nonempty list is nonempty when `n > 0`. -/
theorem pyLast_ne_nil (n : Nat) (l : List α) (hn : 0 < n) (hl : l ≠ []) :
    pyLast n l ≠ [] := by
  simp only [pyLast, ne_eq, List.drop_eq_nil_iff]
  have : 0 < l.length := List.length_pos.mpr hl
  omega

/-- C5: conversation memory is only ever read through its bounded window
during prompt construction: the Gemini tutor reads at most the 5 most recent
entries and the Qwen2 tutor at most the 2 most recent (each window a tail of
the history, most recent last), and each tutor's response is unchanged if the
history is replaced by just that window. -/
theorem c5_memory_window_bounded (hist : List Str) (questions corrects : List Str)
    (db : List (List ℚ)) (encode : Str → List ℚ) (apiG : Str → ApiOutcome)
    (apiQ : Str → OllamaOutcome) (query m : Str) (topK : Nat) :
    (pyLast 5 hist).length ≤ 5 ∧ pyLast 5 hist <:+ hist ∧
    geminiHistoryText hist = geminiHistoryText (pyLast 5 hist) ∧
    (pyLast 2 hist).length ≤ 2 ∧ pyLast 2 hist <:+ hist ∧
    qwenHistoryText hist = qwenHistoryText (pyLast 2 hist) ∧
    (geminiPersonalizedTutor questions corrects db encode apiG hist query topK).1 =
      (geminiPersonalizedTutor questions corrects db encode apiG (pyLast 5 hist) query topK).1 ∧
    (qwenPersonalizedTutor questions corrects db encode apiQ hist query m topK).1 =
      (qwenPersonalizedTutor questions corrects db encode apiQ (pyLast 2 hist) query m topK).1 := by
  have hg : geminiHistoryText hist = geminiHistoryText (pyLast 5 hist) := by
    by_cases hl : hist = []
    · subst hl; rfl
    · simp only [geminiHistoryText, if_neg hl,
        if_neg (pyLast_ne_nil 5 hist (by omega) hl), pyLast_idem]
  have hq : qwenHistoryText hist = qwenHistoryText (pyLast 2 hist) := by
    by_cases hl : hist = []
    · subst hl; rfl
    · simp only [qwenHistoryText, if_neg hl,
        if_neg (pyLast_ne_nil 2 hist (by omega) hl), pyLast_idem]
  refine ⟨pyLast_length_le 5 hist, pyLast_isSuffix 5 hist, hg,
          pyLast_length_le 2 hist, pyLast_isSuffix 2 hist, hq, ?_, rfl⟩
  simp only [geminiPersonalizedTutor, hg]

/-- C4: every backend failure becomes a descriptive error string returned in
place of generated text — the Gemini wrapper tags API exceptions, the Qwen2
wrapper tags non-200 statuses, connection errors, timeouts and all other
exceptions (all with a `[Error` marker), and the Phi3 tutor returns its
apology sentence on any exception; callers always receive a string, never a
propagated exception. -/
theorem c4_failures_return_error_strings :
    (∀ e, geminiGenerateAnswer (.failure e) =
        ("[Error from Gemini API] ").toList ++ e) ∧
    (∀ e, ("[Error").toList <+: geminiGenerateAnswer (.failure e)) ∧
    (∀ code body, code ≠ 200 →
        qwenGenerateAnswer (.httpResponse code body) =
          ("[Error] Ollama returned status ").toList ++ (toString code).toList ++
            (". Is Ollama running?").toList) ∧
    (qwenGenerateAnswer .connectionError =
      ("[Error] Cannot connect to Ollama. Please start Ollama service.").toList) ∧
    (qwenGenerateAnswer .timeoutError =
      ("[Error] Request timed out. Try again.").toList) ∧
    (∀ e, qwenGenerateAnswer (.otherError e) = ("[Error] ").toList ++ e) ∧
    (∀ modelName e query, phi3AskQuestion modelName (.failure e) query =
        ollamaTutorApology modelName) := by
  refine ⟨fun e => rfl, ?_, ?_, rfl, rfl, fun e => rfl, fun m e q => rfl⟩
  · intro e
    exact ⟨(" from Gemini API] ").toList ++ e, rfl⟩
  · intro code body hc
    simp [qwenGenerateAnswer, hc]

/-- Witness for `c4_failures_return_error_strings` at HTTP status 500. -/
theorem c4_witness :
    qwenGenerateAnswer (.httpResponse 500 none) =
      ("[Error] Ollama returned status 500. Is Ollama running?").toList := by
  have h := c4_failures_return_error_strings.2.2.1 500 none (by decide)
  rw [h]; rfl

/-- C7: prompt assembly is injective in the query: with the retrieved context
and memory block held fixed, distinct query texts give distinct assembled
prompts, for both the Gemini and the Qwen2 templates. -/
theorem c7_prompt_injective_in_query (ctx ht q1 q2 : Str) :
    (geminiPrompt ctx ht q1 = geminiPrompt ctx ht q2 → q1 = q2) ∧
    (qwenPrompt ctx q1 = qwenPrompt ctx q2 → q1 = q2) := by
  constructor
  · intro h
    simp only [geminiPrompt, List.append_assoc] at h
    have h1 := List.append_cancel_left h
    have h2 := List.append_cancel_left h1
    have h3 := List.append_cancel_left h2
    have h4 := List.append_cancel_left h3
    have h5 := List.append_cancel_left h4
    exact List.append_cancel_right h5
  · intro h
    simp only [qwenPrompt, List.append_assoc] at h
    have h1 := List.append_cancel_left h
    have h2 := List.append_cancel_left h1
    have h3 := List.append_cancel_left h2
    have h4 := List.append_cancel_left h3
    exact List.append_cancel_right h4

/-- Witness for `c7_prompt_injective_in_query` at concrete equal prompts. -/
theorem c7_witness :
    (("ospf").toList : Str) = ("ospf").toList ∧
    (("vlan").toList : Str) = ("vlan").toList :=
  ⟨(c7_prompt_injective_in_query [] [] (("ospf").toList) (("ospf").toList)).1 rfl,
   (c7_prompt_injective_in_query [] [] (("vlan").toList) (("vlan").toList)).2 rfl⟩

set_option maxRecDepth 8000 in
/-- C2 counterexample: the Qwen2 assembler does NOT pass the full retrieved
context through uncapped.  For a 401-character context, the assembled prompt
does not contain the context at all (the prompt holds only its first 400
characters): the full context occurs in no decomposition of the prompt. -/
theorem c2_counterexample_qwen_caps_context :
    ¬ ∃ pre post : Str,
        qwenPrompt (List.replicate 401 'Z') [] =
          pre ++ (List.replicate 401 'Z' ++ post) := by
  rintro ⟨pre, post, h⟩
  have hc := congrArg (List.count 'Z') h
  rw [List.count_append, List.count_append, List.count_replicate_self] at hc
  have hl : List.count 'Z' (qwenPrompt (List.replicate 401 'Z') []) = 400 := by
    decide
  rw [hl] at hc
  omega

/-- C2 (amended): the Gemini assembler passes the full retrieved context
uncapped into the prompt; the Qwen2 assembler passes only the first 400
characters of the retrieved context (`context[:400]`); neither applies any
truncation to the query, and memory enters only through its bounded window. -/
theorem c2_amended_context_passthrough (ctx ht q : Str) :
    (∃ pre post : Str, geminiPrompt ctx ht q = pre ++ (ctx ++ post)) ∧
    (∃ pre post : Str, qwenPrompt ctx q = pre ++ (pyTake 400 ctx ++ post)) := by
  constructor
  · exact ⟨geminiPromptHead,
      ("\n\n").toList ++ ht ++ ("\n\nConfiguration request: ").toList ++ q ++
        ("\n\nProvide clear CLI commands with syntax and verification steps.\n").toList,
      by simp [geminiPrompt, List.append_assoc]⟩
  · exact ⟨qwenInstruction ++ ("\n\nContext: ").toList,
      ("\n\nQuestion: ").toList ++ q ++ ("\n\nQuick answer:").toList,
      by simp [qwenPrompt, List.append_assoc]⟩

/-- C1: with a one-entry corpus and `k = 3`, FAISS returns ids `[0, -1, -1]`;
the guard `i < len(questions)` keeps both `-1` padding positions, and the
assembled context holds three `Q:/A:` pairs — two of them produced from the
padding position `-1` (which Python's negative indexing maps to the last
corpus entry) — contradicting that no pair is ever produced from a position
outside `0..n-1`. -/
theorem c1_guard_admits_faiss_padding :
    ((faissSearch [[(0 : ℚ)]] [(0 : ℚ)] 3).map Prod.fst = [0, -1, -1]) ∧
    (contextPositions [("q").toList]
        ((faissSearch [[(0 : ℚ)]] [(0 : ℚ)] 3).map Prod.fst) = [0, -1, -1]) ∧
    (retrievedContext [("q").toList] [("a").toList]
        ((faissSearch [[(0 : ℚ)]] [(0 : ℚ)] 3).map Prod.fst) =
      ("Q: q\nA: a\nQ: q\nA: a\nQ: q\nA: a").toList) ∧
    ¬ (∀ i ∈ contextPositions [("q").toList]
          ((faissSearch [[(0 : ℚ)]] [(0 : ℚ)] 3).map Prod.fst), 0 ≤ i ∧ i < 1) := by
  decide

/-- C3: for any corpus, encoder and query, `search(encode(q), k)` returns at
most `k` `(position, distance)` pairs, ordered by non-decreasing squared
Euclidean distance (nearest first; padding positions carry the infinite
distance and sit at the end). -/
theorem c3_search_at_most_k_and_sorted (encode : Str → List ℚ) (q : Str)
    (db : List (List ℚ)) (k : Nat) (hdb : db ≠ []) :
    (faissSearch db (encode q) k).length ≤ k ∧
    List.Sorted (fun p₁ p₂ : Int × WithTop ℚ => p₁.2 ≤ p₂.2)
      (faissSearch db (encode q) k) := by
  have _ := hdb
  constructor
  · have hl : (searchPairs db (encode q)).length = db.length := by
      simp [searchPairs]
    simp only [faissSearch, List.length_append, List.length_take,
      List.length_insertionSort, List.length_replicate, hl]
    omega
  · have hs : List.Sorted searchLe
        (List.insertionSort searchLe (searchPairs db (encode q))) :=
      List.sorted_insertionSort searchLe _
    have hs2 : List.Sorted (fun p₁ p₂ : Int × WithTop ℚ => p₁.2 ≤ p₂.2)
        (List.insertionSort searchLe (searchPairs db (encode q))) := by
      refine hs.imp ?_
      intro a b hab
      rcases hab with h | ⟨h, _⟩
      · exact le_of_lt h
      · exact le_of_eq h
    have ht : List.Sorted (fun p₁ p₂ : Int × WithTop ℚ => p₁.2 ≤ p₂.2)
        ((List.insertionSort searchLe (searchPairs db (encode q))).take k) :=
      List.Pairwise.sublist (List.take_sublist k _) hs2
    refine List.pairwise_append.mpr ⟨ht, ?_, ?_⟩
    · exact List.pairwise_replicate.mpr (Or.inr le_rfl)
    · intro a _ b hb
      rw [List.eq_of_mem_replicate hb]
      exact le_top

/-- Witness for `c3_search_at_most_k_and_sorted` on a one-vector corpus with
`k = 2`. -/
theorem c3_witness :
    (([[(1 : ℚ)]] : List (List ℚ)) ≠ []) ∧
    ((faissSearch [[(1 : ℚ)]] ((fun _ : Str => [(0 : ℚ)]) []) 2).length ≤ 2 ∧
     List.Sorted (fun p₁ p₂ : Int × WithTop ℚ => p₁.2 ≤ p₂.2)
       (faissSearch [[(1 : ℚ)]] ((fun _ : Str => [(0 : ℚ)]) []) 2)) :=
  ⟨by decide,
   c3_search_at_most_k_and_sorted (fun _ : Str => [(0 : ℚ)]) [] [[(1 : ℚ)]] 2
     (by decide)⟩

/-- Endpoint `switch_model` leaves every field other than the backend selection
(`current_tutor`, `current_model`) unchanged. -/
theorem switchModel_state_frame (st : ServerState) (m : Str) :
    (switchModel st m).1.geminiMem = st.geminiMem ∧
    (switchModel st m).1.qwenMem = st.qwenMem ∧
    (switchModel st m).1.phi3Mem = st.phi3Mem ∧
    (switchModel st m).1.llamaMem = st.llamaMem ∧
    (switchModel st m).1.phi3Avail = st.phi3Avail ∧
    (switchModel st m).1.llamaAvail = st.llamaAvail ∧
    (switchModel st m).1.geminiAvail = st.geminiAvail := by
  unfold switchModel
  split_ifs <;> exact ⟨rfl, rfl, rfl, rfl, rfl, rfl, rfl⟩

/-- The per-request switch block of `chat_endpoint` also changes at most the
backend selection. -/
theorem chatSwitch_state_frame (st : ServerState) (tag : Str) :
    (chatSwitch st tag).geminiMem = st.geminiMem ∧
    (chatSwitch st tag).qwenMem = st.qwenMem ∧
    (chatSwitch st tag).phi3Mem = st.phi3Mem ∧
    (chatSwitch st tag).llamaMem = st.llamaMem ∧
    (chatSwitch st tag).geminiAvail = st.geminiAvail := by
  unfold chatSwitch
  split_ifs <;> exact ⟨rfl, rfl, rfl, rfl, rfl⟩

/-- A chat call only ever appends to the Gemini conversation memory and
leaves the other memories untouched. -/
theorem chatEndpoint_memory_frame (questions corrects : List Str)
    (db : List (List ℚ)) (encode : Str → List ℚ) (api : Str → ApiOutcome)
    (askP askL : Str → Str) (st : ServerState) (msg tag : Str) :
    st.geminiMem <+:
      (chatEndpoint questions corrects db encode api askP askL st msg tag).1.geminiMem ∧
    (chatEndpoint questions corrects db encode api askP askL st msg tag).1.qwenMem =
      st.qwenMem ∧
    (chatEndpoint questions corrects db encode api askP askL st msg tag).1.phi3Mem =
      st.phi3Mem ∧
    (chatEndpoint questions corrects db encode api askP askL st msg tag).1.llamaMem =
      st.llamaMem := by
  obtain ⟨hg, hq, hp, hl, hga⟩ := chatSwitch_state_frame st tag
  unfold chatEndpoint
  cases hct : (chatSwitch st tag).currentTutor with
  | some t =>
      simp only [hct]
      exact ⟨hg ▸ List.prefix_rfl, hq, hp, hl⟩
  | none =>
      simp only [hct]
      by_cases hav : (chatSwitch st tag).geminiAvail
      · simp only [hav, if_true]
        refine ⟨?_, hq, hp, hl⟩
        have h2 : (geminiPersonalizedTutor questions corrects db encode api
            (chatSwitch st tag).geminiMem msg 3).2 =
            (chatSwitch st tag).geminiMem ++
              [qaEntry msg (geminiPersonalizedTutor questions corrects db encode api
                (chatSwitch st tag).geminiMem msg 3).1] := rfl
        rw [h2, hg]
        exact List.prefix_append _ _
      · simp only [hav, if_false]
        exact ⟨hg ▸ List.prefix_rfl, hq, hp, hl⟩

/-- C8: switching the active backend — via `/switch-model` or a per-request
tag — changes only the current-backend selection: all availability flags and
every previously stored conversation-memory entry of every backend are left
unchanged (a subsequent chat call can only append new Gemini entries), and
the `model_used` field a subsequent `/chat` call reports is exactly the one
determined by the post-switch selection. -/
theorem c8_switch_preserves_memories (st : ServerState) (m : Str)
    (questions corrects : List Str) (db : List (List ℚ)) (encode : Str → List ℚ)
    (api : Str → ApiOutcome) (askP askL : Str → Str) (msg tag : Str) :
    ((switchModel st m).1.geminiMem = st.geminiMem ∧
     (switchModel st m).1.qwenMem = st.qwenMem ∧
     (switchModel st m).1.phi3Mem = st.phi3Mem ∧
     (switchModel st m).1.llamaMem = st.llamaMem ∧
     (switchModel st m).1.phi3Avail = st.phi3Avail ∧
     (switchModel st m).1.llamaAvail = st.llamaAvail ∧
     (switchModel st m).1.geminiAvail = st.geminiAvail) ∧
    ((switchModel st m).1.geminiMem <+:
      (chatEndpoint questions corrects db encode api askP askL
        (switchModel st m).1 msg tag).1.geminiMem ∧
     (chatEndpoint questions corrects db encode api askP askL
        (switchModel st m).1 msg tag).1.qwenMem = st.qwenMem ∧
     (chatEndpoint questions corrects db encode api askP askL
        (switchModel st m).1 msg tag).1.phi3Mem = st.phi3Mem ∧
     (chatEndpoint questions corrects db encode api askP askL
        (switchModel st m).1 msg tag).1.llamaMem = st.llamaMem) ∧
    ((chatEndpoint questions corrects db encode api askP askL
        (switchModel st m).1 msg (switchModel st m).1.currentModel).2.modelUsed =
      (match (switchModel st m).1.currentTutor with
       | some _ =>
           some (if (switchModel st m).1.currentModel = ("phi3").toList
                 then ("phi3:mini").toList else ("llama3.1:8b").toList)
       | none =>
           if (switchModel st m).1.geminiAvail
           then some (("gemini").toList) else none)) := by
  obtain ⟨hg, hq, hp, hl, _, _, _⟩ := switchModel_state_frame st m
  refine ⟨switchModel_state_frame st m, ?_, ?_⟩
  · obtain ⟨cg, cq, cp, cl⟩ := chatEndpoint_memory_frame questions corrects db
      encode api askP askL (switchModel st m).1 msg tag
    exact ⟨cg, cq.trans hq, cp.trans hp, cl.trans hl⟩
  · have hsw : chatSwitch (switchModel st m).1 (switchModel st m).1.currentModel =
        (switchModel st m).1 := by
      unfold chatSwitch
      rw [if_neg]
      intro hcc
      exact hcc.2 rfl
    unfold chatEndpoint
    rw [hsw]
    cases hct : (switchModel st m).1.currentTutor with
    | some t => cases t <;> simp [hct]
    | none =>
        by_cases hav : (switchModel st m).1.geminiAvail <;>
          simp [hct, hav]

end CCNATutor
